import Mathlib

/-!
# Frame capture manager of `esp32-m5stack-atoms3r/src/camera.cpp`

A shallow embedding of the GC0308 camera shim.  The module keeps three globals
(`s_captures_ok`, `s_captures_fail`, `s_last_fb`) and talks to the esp32-camera
driver through `esp_camera_init`, `esp_camera_fb_get` and `esp_camera_fb_return`.

Modelling conventions:
* a `camera_fb_t *` is a natural-number address, `0` being `nullptr`; the driver
  memory visible during a call is a function `mem` from addresses to structs;
* `uint32_t` counters are naturals reduced modulo `2 ^ 32` on every increment;
* the out-parameters `out_ptr` / `out_len` are `Option Nat`: `none` is a null
  pointer, `some v` a valid pointer whose cell currently holds `v`; the call
  gives back the cells as they are afterwards;
* every call of an external function (driver, GPIO, FreeRTOS, log) is recorded,
  in program order, as an `Event`.
-/

namespace PipecatCamera

/-! ## External types (esp32-camera, ESP-IDF) -/

/-- Pixel formats of esp32-camera (`sensor.h`), in declaration order. -/
inductive pixformat_t
  | PIXFORMAT_RGB565
  | PIXFORMAT_YUV422
  | PIXFORMAT_YUV420
  | PIXFORMAT_GRAYSCALE
  | PIXFORMAT_JPEG
  | PIXFORMAT_RGB888
  | PIXFORMAT_RAW
  | PIXFORMAT_RGB444
  | PIXFORMAT_RGB555
  deriving DecidableEq, Repr

/-- Integer value of a pixel format, as printed by the `%d` of the log line. -/
def pixformat_t.toInt : pixformat_t → Int
  | .PIXFORMAT_RGB565 => 0
  | .PIXFORMAT_YUV422 => 1
  | .PIXFORMAT_YUV420 => 2
  | .PIXFORMAT_GRAYSCALE => 3
  | .PIXFORMAT_JPEG => 4
  | .PIXFORMAT_RGB888 => 5
  | .PIXFORMAT_RAW => 6
  | .PIXFORMAT_RGB444 => 7
  | .PIXFORMAT_RGB555 => 8

/-- Frame sizes of esp32-camera (`sensor.h`). -/
inductive framesize_t
  | FRAMESIZE_96X96
  | FRAMESIZE_QQVGA
  | FRAMESIZE_QCIF
  | FRAMESIZE_HQVGA
  | FRAMESIZE_240X240
  | FRAMESIZE_QVGA
  | FRAMESIZE_CIF
  | FRAMESIZE_HVGA
  | FRAMESIZE_VGA
  | FRAMESIZE_SVGA
  | FRAMESIZE_XGA
  | FRAMESIZE_HD
  | FRAMESIZE_SXGA
  | FRAMESIZE_UXGA
  deriving DecidableEq, Repr

/-- Placement of the frame buffers. -/
inductive camera_fb_location_t
  | CAMERA_FB_IN_PSRAM
  | CAMERA_FB_IN_DRAM
  deriving DecidableEq, Repr

/-- Grab policy of the driver. -/
inductive camera_grab_mode_t
  | CAMERA_GRAB_WHEN_EMPTY
  | CAMERA_GRAB_LATEST
  deriving DecidableEq, Repr

/-- Direction of a GPIO pad. -/
inductive gpio_mode_t
  | GPIO_MODE_DISABLE
  | GPIO_MODE_INPUT
  | GPIO_MODE_OUTPUT
  deriving DecidableEq, Repr

/-- The fields of `gpio_config_t`; the three enable flags are `true` for the
`..._ENABLE` enumerator and `false` for `..._DISABLE`. -/
structure gpio_config_t where
  pin_bit_mask : Nat
  mode : gpio_mode_t
  pull_up_en : Bool
  pull_down_en : Bool
  intr_type : Bool

/-- The fields of `camera_config_t` that `pipecat_camera_init_gc0308` assigns. -/
structure camera_config_t where
  pin_pwdn : Int
  pin_reset : Int
  pin_xclk : Int
  pin_sccb_sda : Int
  pin_sccb_scl : Int
  pin_d7 : Int
  pin_d6 : Int
  pin_d5 : Int
  pin_d4 : Int
  pin_d3 : Int
  pin_d2 : Int
  pin_d1 : Int
  pin_d0 : Int
  pin_vsync : Int
  pin_href : Int
  pin_pclk : Int
  xclk_freq_hz : Int
  ledc_timer : Nat
  ledc_channel : Nat
  pixel_format : pixformat_t
  frame_size : framesize_t
  jpeg_quality : Int
  fb_count : Nat
  fb_location : camera_fb_location_t
  grab_mode : camera_grab_mode_t
  sccb_i2c_port : Int

/-- The fields of the driver-owned `camera_fb_t`. -/
structure camera_fb_t where
  buf : Nat
  len : Nat
  width : Nat
  height : Nat
  format : pixformat_t

/-- Calls of external functions, in the order the program makes them. -/
inductive Event
  | gpio_config (cfg : gpio_config_t)
  | gpio_set_level (gpio_num : Nat) (level : Nat)
  | vTaskDelay (ticks : Nat)
  | esp_camera_init (config : camera_config_t)
  | esp_camera_fb_get (result : Nat)
  | esp_camera_fb_return (fb : Nat)
  | ESP_LOGE (tag : String) (fmt : String) (args : List Int)
  | ESP_LOGW (tag : String) (fmt : String) (args : List Int)

/-- The null pointer. -/
def nullptr : Nat := 0

/-- Status `ESP_OK` of ESP-IDF. -/
def ESP_OK : Int := 0

/-- Log tag of the module. -/
def TAG : String := "PIPECAT_CAMERA"

/-- The FreeRTOS conversion `pdMS_TO_TICKS`, for a tick rate `configTICK_RATE_HZ`. -/
def pdMS_TO_TICKS (configTICK_RATE_HZ : Nat) (ms : Nat) : Nat :=
  ms * configTICK_RATE_HZ / 1000

/-- The increment `x++` of a `uint32_t`. -/
def uint32_incr (x : Nat) : Nat := (x + 1) % 2 ^ 32

/-! ## Module state -/

/-- The three file-scope variables of `camera.cpp`. -/
structure Globals where
  s_captures_ok : Nat
  s_captures_fail : Nat
  s_last_fb : Nat

/-- Initial values of the globals. -/
def Globals.init : Globals := ⟨0, 0, nullptr⟩

/-! ## The functions of `camera.cpp` -/

/-- The power-enable pad configuration built at the top of the init function. -/
def cam_power_cfg : gpio_config_t :=
  { pin_bit_mask := 2 ^ 18
    mode := .GPIO_MODE_OUTPUT
    pull_up_en := false
    pull_down_en := false
    intr_type := false }

/-- The driver configuration built by the init function. -/
def config : camera_config_t :=
  { pin_pwdn := -1
    pin_reset := -1
    pin_xclk := 21
    pin_sccb_sda := 12
    pin_sccb_scl := 9
    pin_d7 := 13
    pin_d6 := 11
    pin_d5 := 17
    pin_d4 := 4
    pin_d3 := 48
    pin_d2 := 46
    pin_d1 := 42
    pin_d0 := 3
    pin_vsync := 10
    pin_href := 14
    pin_pclk := 40
    xclk_freq_hz := 20000000
    ledc_timer := 0
    ledc_channel := 0
    pixel_format := .PIXFORMAT_RGB565
    frame_size := .FRAMESIZE_QVGA
    jpeg_quality := 12
    fb_count := 2
    fb_location := .CAMERA_FB_IN_PSRAM
    grab_mode := .CAMERA_GRAB_LATEST
    sccb_i2c_port := 0 }

/-- Embedding of `pipecat_camera_init_gc0308`: `err` is the status that
`esp_camera_init` answers; the result is the return value and the external
calls made. -/
def pipecat_camera_init_gc0308 (configTICK_RATE_HZ : Nat) (err : Int) : Int × List Event :=
  let power : List Event :=
    [ Event.gpio_config cam_power_cfg
    , Event.gpio_set_level 18 0
    , Event.vTaskDelay (pdMS_TO_TICKS configTICK_RATE_HZ 100)
    , Event.esp_camera_init config ]
  if err ≠ ESP_OK then
    (-1, power ++ [Event.ESP_LOGE TAG "esp_camera_init failed: %d" [err]])
  else
    (0, power)

/-- What one call of `camera_capture_rgb565` leaves behind. -/
structure CaptureResult where
  ret : Int
  globals : Globals
  out_ptr : Option Nat
  out_len : Option Nat
  effects : List Event

/-- Embedding of `camera_capture_rgb565`.  `fb` is the pointer that
`esp_camera_fb_get` answers if it is called, `mem` the driver memory then. -/
def camera_capture_rgb565 (mem : Nat → camera_fb_t) (fb : Nat)
    (out_ptr out_len : Option Nat) (g : Globals) : CaptureResult :=
  if out_ptr.isNone || out_len.isNone then
    ⟨-1, g, out_ptr, out_len, []⟩
  else
    let g1 : Globals := { g with s_last_fb := fb }
    if g1.s_last_fb = nullptr then
      ⟨-1, { g1 with s_captures_fail := uint32_incr g1.s_captures_fail }, out_ptr, out_len,
        [ Event.esp_camera_fb_get fb
        , Event.ESP_LOGW TAG "camera capture failed" [] ]⟩
    else if (mem g1.s_last_fb).format ≠ pixformat_t.PIXFORMAT_RGB565 then
      ⟨-1, { g1 with s_captures_fail := uint32_incr g1.s_captures_fail, s_last_fb := nullptr },
        out_ptr, out_len,
        [ Event.esp_camera_fb_get fb
        , Event.ESP_LOGW TAG "unexpected pixel format=%d" [(mem g1.s_last_fb).format.toInt]
        , Event.esp_camera_fb_return g1.s_last_fb ]⟩
    else
      ⟨0, { g1 with s_captures_ok := uint32_incr g1.s_captures_ok },
        some (mem g1.s_last_fb).buf, some (mem g1.s_last_fb).len,
        [ Event.esp_camera_fb_get fb ]⟩

/-- Embedding of `camera_release_frame`: the new globals and the external calls. -/
def camera_release_frame (g : Globals) : Globals × List Event :=
  if g.s_last_fb ≠ nullptr then
    ({ g with s_last_fb := nullptr }, [Event.esp_camera_fb_return g.s_last_fb])
  else
    (g, [])

/-- Embedding of `camera_get_captures_ok`. -/
def camera_get_captures_ok (g : Globals) : Nat := g.s_captures_ok

/-- Embedding of `camera_get_captures_fail`. -/
def camera_get_captures_fail (g : Globals) : Nat := g.s_captures_fail

/-! ## Sequences of calls -/

/-- One call into the module by its client; a capture carries its arguments
and what the driver would answer during it. -/
inductive Call
  | capture (out_ptr out_len : Option Nat) (mem : Nat → camera_fb_t) (fb : Nat)
  | release

/-- Whether a call is a capture. -/
def Call.isCapture : Call → Bool
  | .capture _ _ _ _ => true
  | .release => false

/-- Whether a call is a capture whose two out-pointers are both non-null. -/
def Call.isValidCapture : Call → Bool
  | .capture out_ptr out_len _ _ => out_ptr.isSome && out_len.isSome
  | .release => false

/-- The globals together with the log of all external calls made so far. -/
structure World where
  globals : Globals
  trace : List Event

/-- Run one call. -/
def step (w : World) : Call → World
  | .capture out_ptr out_len mem fb =>
      let r := camera_capture_rgb565 mem fb out_ptr out_len w.globals
      ⟨r.globals, w.trace ++ r.effects⟩
  | .release =>
      let r := camera_release_frame w.globals
      ⟨r.1, w.trace ++ r.2⟩

/-- Run a sequence of calls, first call first. -/
def run (w : World) (cs : List Call) : World := cs.foldl step w

/-- The pointer the driver answers during a call, if the call is a capture. -/
def Call.driverAnswer : Call → Option Nat
  | .capture _ _ _ fb => some fb
  | .release => none

/-- Strict alternation: no two neighbouring calls are of the same kind. -/
def alternates : List Call → Bool
  | a :: b :: t => (a.isCapture != b.isCapture) && alternates (b :: t)
  | _ => true

/-- Number of capture calls with both out-pointers non-null in a sequence. -/
def validCaptures (cs : List Call) : Nat := cs.countP Call.isValidCapture

/-- A capture with valid out-pointers during which the driver answers null. -/
def noBufferCall : Call :=
  Call.capture (some 0) (some 0) (fun _ => ⟨0, 0, 0, 0, .PIXFORMAT_RGB565⟩) nullptr

/-! ## Observations on a trace -/

/-- Whether an event is a log line. -/
def Event.isLog : Event → Bool
  | .ESP_LOGE _ _ _ => true
  | .ESP_LOGW _ _ _ => true
  | _ => false

/-- The buffer an event hands back to the driver, if it is an
`esp_camera_fb_return` call. -/
def Event.returnedBuffer : Event → Option Nat
  | .esp_camera_fb_return fb => some fb
  | _ => none

/-- The answer of an event, if it is an `esp_camera_fb_get` call. -/
def Event.getResult : Event → Option Nat
  | .esp_camera_fb_get r => some r
  | _ => none

/-- The buffer an event obtains from the driver, if it is an
`esp_camera_fb_get` call that answered a non-null pointer. -/
def Event.acquiredBuffer : Event → Option Nat
  | .esp_camera_fb_get r => if r ≠ nullptr then some r else none
  | _ => none

/-- Arguments of the `esp_camera_fb_return` calls of a trace, in order. -/
def returnedBuffers (tr : List Event) : List Nat := tr.filterMap Event.returnedBuffer

/-- Non-null answers of the `esp_camera_fb_get` calls of a trace, in order. -/
def acquiredBuffers (tr : List Event) : List Nat := tr.filterMap Event.acquiredBuffer

/-- Buffers obtained from the driver and not yet handed back, as a count. -/
def outstanding (tr : List Event) : Int :=
  ((acquiredBuffers tr).length : Int) - ((returnedBuffers tr).length : Int)

/-- Answer of the most recent `esp_camera_fb_get` call, if there was one. -/
def lastGet (tr : List Event) : Option Nat := (tr.filterMap Event.getResult).getLast?

/-- The events after the most recent `esp_camera_fb_get` call (all events when
there was none). -/
def sinceLastGet (tr : List Event) : List Event :=
  tr.rtakeWhile (fun e => e.getResult.isNone)

/-! ## Sample buffers and invariants used below -/

/-- A JPEG-tagged frame buffer used by the concrete instances below. -/
def jpegFrame : camera_fb_t := ⟨4096, 9000, 320, 240, .PIXFORMAT_JPEG⟩

/-- A 320x240 RGB565 frame buffer used by the concrete instances below. -/
def qvgaFrame : camera_fb_t := ⟨8192, 153600, 320, 240, .PIXFORMAT_RGB565⟩

/-- At every point of the trace at most one buffer is checked out, and never
fewer than none. -/
def Bounded (tr : List Event) : Prop :=
  ∀ p, p <+: tr → 0 ≤ outstanding p ∧ outstanding p ≤ 1

/-- What holds after a strictly alternating sequence started with an empty
slot and an empty trace. -/
def AltInv (cs : List Call) (w : World) : Prop :=
  Bounded w.trace ∧
  outstanding w.trace = (if w.globals.s_last_fb = nullptr then 0 else 1) ∧
  ((∀ x ∈ cs.getLast?, x.isCapture = false) → w.globals.s_last_fb = nullptr)

/-- A return of `b` right after the events `p` is legitimate: `b` is non-null,
it is the answer of the most recent `esp_camera_fb_get`, and nothing has been
handed back since that call. -/
def RetOK (p : List Event) (b : Nat) : Prop :=
  b ≠ nullptr ∧ lastGet p = some b ∧ returnedBuffers (sinceLastGet p) = []

/-- Every return in the trace is legitimate and at no point have more buffers
been handed back than obtained. -/
def TraceOK (tr : List Event) : Prop :=
  (∀ p b, p ++ [Event.esp_camera_fb_return b] <+: tr → RetOK p b) ∧
  (∀ p, p <+: tr → (returnedBuffers p).length ≤ (acquiredBuffers p).length)

/-- What holds after any sequence of calls started with an empty slot and an
empty trace: the trace is in order, a held buffer is the answer of the most
recent `esp_camera_fb_get` and has not been handed back, and it is counted
among the buffers obtained. -/
def OwnInv (w : World) : Prop :=
  TraceOK w.trace ∧
  (w.globals.s_last_fb ≠ nullptr →
    lastGet w.trace = some w.globals.s_last_fb ∧ returnedBuffers (sinceLastGet w.trace) = []) ∧
  (returnedBuffers w.trace).length + (if w.globals.s_last_fb = nullptr then 0 else 1)
    ≤ (acquiredBuffers w.trace).length

/-! ## Single calls -/

/-- Claim C2: when the driver answers a non-null buffer whose format is not
RGB565, a capture with non-null out-pointers fails with -1, hands that very
buffer back with exactly one `esp_camera_fb_return`, leaves the slot empty,
increments `s_captures_fail` (as a `uint32_t`) and keeps `s_captures_ok`. -/
theorem C2_format_mismatch_returns_buffer (g : Globals) (mem : Nat → camera_fb_t)
    (b p l : Nat) (hb : b ≠ nullptr)
    (hf : (mem b).format ≠ pixformat_t.PIXFORMAT_RGB565) :
    (camera_capture_rgb565 mem b (some p) (some l) g).ret = -1 ∧
    (camera_capture_rgb565 mem b (some p) (some l) g).effects =
      [ Event.esp_camera_fb_get b
      , Event.ESP_LOGW TAG "unexpected pixel format=%d" [(mem b).format.toInt]
      , Event.esp_camera_fb_return b ] ∧
    returnedBuffers (camera_capture_rgb565 mem b (some p) (some l) g).effects = [b] ∧
    (camera_capture_rgb565 mem b (some p) (some l) g).globals.s_last_fb = nullptr ∧
    camera_get_captures_fail (camera_capture_rgb565 mem b (some p) (some l) g).globals
      = (camera_get_captures_fail g + 1) % 2 ^ 32 ∧
    (camera_get_captures_fail g + 1 < 2 ^ 32 →
      camera_get_captures_fail (camera_capture_rgb565 mem b (some p) (some l) g).globals
        = camera_get_captures_fail g + 1) ∧
    camera_get_captures_ok (camera_capture_rgb565 mem b (some p) (some l) g).globals
      = camera_get_captures_ok g := by
  have hb0 : ¬ b = nullptr := hb
  refine ⟨?_, ?_, ?_, ?_, ?_, ?_, ?_⟩ <;>
    simp [camera_capture_rgb565, hb0, hf, returnedBuffers, Event.returnedBuffer,
      camera_get_captures_fail, camera_get_captures_ok, uint32_incr]

/-- Instance of C2: a JPEG buffer at address 7. -/
theorem C2_format_mismatch_returns_buffer_witness :
    (camera_capture_rgb565 (fun _ => jpegFrame) 7 (some 0) (some 0) ⟨3, 5, nullptr⟩).ret = -1 ∧
    returnedBuffers
      (camera_capture_rgb565 (fun _ => jpegFrame) 7 (some 0) (some 0) ⟨3, 5, nullptr⟩).effects
        = [7] :=
  have h := C2_format_mismatch_returns_buffer ⟨3, 5, nullptr⟩ (fun _ => jpegFrame) 7 0 0
    (by decide) (by decide)
  ⟨h.1, h.2.2.1⟩

/-- Claim C3: when the driver answers a non-null RGB565 buffer `b`, a capture
with non-null out-pointers returns 0, stores `b->buf` in `*out_ptr` and
`b->len` in `*out_len` (153600 for a 320x240 frame of two bytes per pixel),
keeps `b` in the slot, increments `s_captures_ok` (as a `uint32_t`), keeps
`s_captures_fail` and makes no `esp_camera_fb_return` call. -/
theorem C3_success_stores_buffer (g : Globals) (mem : Nat → camera_fb_t)
    (b p l : Nat) (hb : b ≠ nullptr)
    (hf : (mem b).format = pixformat_t.PIXFORMAT_RGB565) :
    (camera_capture_rgb565 mem b (some p) (some l) g).ret = 0 ∧
    (camera_capture_rgb565 mem b (some p) (some l) g).out_ptr = some (mem b).buf ∧
    (camera_capture_rgb565 mem b (some p) (some l) g).out_len = some (mem b).len ∧
    ((mem b).width = 320 → (mem b).height = 240 →
      (mem b).len = (mem b).width * (mem b).height * 2 →
      (camera_capture_rgb565 mem b (some p) (some l) g).out_len = some 153600) ∧
    (camera_capture_rgb565 mem b (some p) (some l) g).globals.s_last_fb = b ∧
    camera_get_captures_ok (camera_capture_rgb565 mem b (some p) (some l) g).globals
      = (camera_get_captures_ok g + 1) % 2 ^ 32 ∧
    (camera_get_captures_ok g + 1 < 2 ^ 32 →
      camera_get_captures_ok (camera_capture_rgb565 mem b (some p) (some l) g).globals
        = camera_get_captures_ok g + 1) ∧
    camera_get_captures_fail (camera_capture_rgb565 mem b (some p) (some l) g).globals
      = camera_get_captures_fail g ∧
    (camera_capture_rgb565 mem b (some p) (some l) g).effects = [Event.esp_camera_fb_get b] ∧
    returnedBuffers (camera_capture_rgb565 mem b (some p) (some l) g).effects = [] := by
  have hb0 : ¬ b = nullptr := hb
  refine ⟨?_, ?_, ?_, ?_, ?_, ?_, ?_, ?_, ?_, ?_⟩ <;>
    simp [camera_capture_rgb565, hb0, hf, returnedBuffers, Event.returnedBuffer,
      camera_get_captures_fail, camera_get_captures_ok, uint32_incr]
  intro hw hh hl
  rw [hl, hw, hh]

/-- Instance of C3: the 320x240 RGB565 frame at address 7 yields length 153600. -/
theorem C3_success_stores_buffer_witness :
    (camera_capture_rgb565 (fun _ => qvgaFrame) 7 (some 0) (some 0) Globals.init).ret = 0 ∧
    (camera_capture_rgb565 (fun _ => qvgaFrame) 7 (some 0) (some 0) Globals.init).out_len
      = some 153600 ∧
    camera_get_captures_ok
      (camera_capture_rgb565 (fun _ => qvgaFrame) 7 (some 0) (some 0) Globals.init).globals
        = 1 :=
  have h := C3_success_stores_buffer Globals.init (fun _ => qvgaFrame) 7 0 0
    (by decide) (by rfl)
  ⟨h.1, h.2.2.2.1 rfl rfl rfl, h.2.2.2.2.2.2.1 (by decide)⟩

/-- Claim C4: when the driver answers null, a capture with non-null
out-pointers fails with -1, increments `s_captures_fail` (as a `uint32_t`),
keeps `s_captures_ok`, makes no `esp_camera_fb_return` call, leaves both
out-cells as they were and leaves the slot empty. -/
theorem C4_no_buffer_fails (g : Globals) (mem : Nat → camera_fb_t) (p l : Nat) :
    (camera_capture_rgb565 mem nullptr (some p) (some l) g).ret = -1 ∧
    camera_get_captures_fail (camera_capture_rgb565 mem nullptr (some p) (some l) g).globals
      = (camera_get_captures_fail g + 1) % 2 ^ 32 ∧
    (camera_get_captures_fail g + 1 < 2 ^ 32 →
      camera_get_captures_fail (camera_capture_rgb565 mem nullptr (some p) (some l) g).globals
        = camera_get_captures_fail g + 1) ∧
    camera_get_captures_ok (camera_capture_rgb565 mem nullptr (some p) (some l) g).globals
      = camera_get_captures_ok g ∧
    (camera_capture_rgb565 mem nullptr (some p) (some l) g).effects =
      [ Event.esp_camera_fb_get nullptr, Event.ESP_LOGW TAG "camera capture failed" [] ] ∧
    returnedBuffers (camera_capture_rgb565 mem nullptr (some p) (some l) g).effects = [] ∧
    (camera_capture_rgb565 mem nullptr (some p) (some l) g).out_ptr = some p ∧
    (camera_capture_rgb565 mem nullptr (some p) (some l) g).out_len = some l ∧
    (camera_capture_rgb565 mem nullptr (some p) (some l) g).globals.s_last_fb = nullptr := by
  refine ⟨?_, ?_, ?_, ?_, ?_, ?_, ?_, ?_, ?_⟩ <;>
    simp [camera_capture_rgb565, returnedBuffers, Event.returnedBuffer,
      camera_get_captures_fail, camera_get_captures_ok, uint32_incr]

/-- Instance of C4 at the initial globals: the failure counter becomes 1. -/
theorem C4_no_buffer_fails_witness :
    camera_get_captures_fail
      (camera_capture_rgb565 (fun _ => qvgaFrame) nullptr (some 0) (some 0) Globals.init).globals
        = 1 ∧
    camera_get_captures_ok
      (camera_capture_rgb565 (fun _ => qvgaFrame) nullptr (some 0) (some 0) Globals.init).globals
        = 0 :=
  have h := C4_no_buffer_fails Globals.init (fun _ => qvgaFrame) 0 0
  ⟨h.2.2.1 (by decide), h.2.2.2.1⟩

/-- Claim C6: `camera_release_frame` is idempotent.  With an empty slot it
changes nothing and calls nothing; in every state the slot is empty
afterwards, both counters are kept, a held buffer is handed back exactly
once, a second release right after the first changes nothing and calls
nothing, so that two releases in a row leave the same globals and the same
trace as one. -/
theorem C6_release_idempotent (g : Globals) (tr : List Event) :
    (g.s_last_fb = nullptr → camera_release_frame g = (g, [])) ∧
    (camera_release_frame g).1.s_last_fb = nullptr ∧
    camera_get_captures_ok (camera_release_frame g).1 = camera_get_captures_ok g ∧
    camera_get_captures_fail (camera_release_frame g).1 = camera_get_captures_fail g ∧
    (g.s_last_fb ≠ nullptr →
      (camera_release_frame g).2 = [Event.esp_camera_fb_return g.s_last_fb]) ∧
    camera_release_frame (camera_release_frame g).1 = ((camera_release_frame g).1, []) ∧
    run ⟨g, tr⟩ [Call.release, Call.release] = run ⟨g, tr⟩ [Call.release] := by
  by_cases h : g.s_last_fb = nullptr <;>
    simp [camera_release_frame, h, run, step, camera_get_captures_ok, camera_get_captures_fail]

/-- Instance of C6: releasing with an empty slot, and releasing buffer 7 twice. -/
theorem C6_release_idempotent_witness :
    camera_release_frame ⟨3, 5, nullptr⟩ = (⟨3, 5, nullptr⟩, []) ∧
    (camera_release_frame ⟨3, 5, 7⟩).2 = [Event.esp_camera_fb_return 7] ∧
    run ⟨⟨3, 5, 7⟩, []⟩ [Call.release, Call.release] = run ⟨⟨3, 5, 7⟩, []⟩ [Call.release] :=
  ⟨(C6_release_idempotent ⟨3, 5, nullptr⟩ []).1 rfl,
   (C6_release_idempotent ⟨3, 5, 7⟩ []).2.2.2.2.1 (by decide),
   (C6_release_idempotent ⟨3, 5, 7⟩ []).2.2.2.2.2.2⟩

/-- Claim C7, refuted as stated: from the initial globals the capture whose
driver answers null and the capture whose driver answers a JPEG buffer report
the same return value, the same out-cells and the same globals. -/
theorem C7_failure_modes_same_result :
    (camera_capture_rgb565 (fun _ => jpegFrame) nullptr (some 0) (some 0) Globals.init).ret
      = (camera_capture_rgb565 (fun _ => jpegFrame) 7 (some 0) (some 0) Globals.init).ret ∧
    (camera_capture_rgb565 (fun _ => jpegFrame) nullptr (some 0) (some 0) Globals.init).out_ptr
      = (camera_capture_rgb565 (fun _ => jpegFrame) 7 (some 0) (some 0) Globals.init).out_ptr ∧
    (camera_capture_rgb565 (fun _ => jpegFrame) nullptr (some 0) (some 0) Globals.init).out_len
      = (camera_capture_rgb565 (fun _ => jpegFrame) 7 (some 0) (some 0) Globals.init).out_len ∧
    (camera_capture_rgb565 (fun _ => jpegFrame) nullptr (some 0) (some 0) Globals.init).globals
      = (camera_capture_rgb565 (fun _ => jpegFrame) 7 (some 0) (some 0) Globals.init).globals := by
  refine ⟨?_, ?_, ?_, ?_⟩ <;>
    simp [camera_capture_rgb565, jpegFrame, Globals.init, nullptr]

/-- Claim C7, amended: both failure modes of a capture with non-null
out-pointers report the same return value -1, leave the out-cells untouched
and leave the same globals (slot empty, `s_captures_fail` incremented as a
`uint32_t`, `s_captures_ok` kept), so the caller cannot tell them apart from
the result; they differ only in the external calls: the no-buffer path logs
"camera capture failed" and hands nothing back, the wrong-format path logs
"unexpected pixel format=%d" and hands the buffer back once. -/
theorem C7_failure_modes_share_return_value (g : Globals) (mem : Nat → camera_fb_t)
    (b p l : Nat) (hb : b ≠ nullptr)
    (hf : (mem b).format ≠ pixformat_t.PIXFORMAT_RGB565) :
    (camera_capture_rgb565 mem nullptr (some p) (some l) g).ret = -1 ∧
    (camera_capture_rgb565 mem b (some p) (some l) g).ret = -1 ∧
    (camera_capture_rgb565 mem nullptr (some p) (some l) g).out_ptr
      = (camera_capture_rgb565 mem b (some p) (some l) g).out_ptr ∧
    (camera_capture_rgb565 mem nullptr (some p) (some l) g).out_len
      = (camera_capture_rgb565 mem b (some p) (some l) g).out_len ∧
    (camera_capture_rgb565 mem nullptr (some p) (some l) g).globals
      = (camera_capture_rgb565 mem b (some p) (some l) g).globals ∧
    returnedBuffers (camera_capture_rgb565 mem nullptr (some p) (some l) g).effects = [] ∧
    returnedBuffers (camera_capture_rgb565 mem b (some p) (some l) g).effects = [b] ∧
    (camera_capture_rgb565 mem nullptr (some p) (some l) g).out_ptr = some p ∧
    (camera_capture_rgb565 mem nullptr (some p) (some l) g).out_len = some l ∧
    (camera_capture_rgb565 mem b (some p) (some l) g).out_ptr = some p ∧
    (camera_capture_rgb565 mem b (some p) (some l) g).out_len = some l ∧
    (camera_capture_rgb565 mem nullptr (some p) (some l) g).globals
      = ⟨g.s_captures_ok, (g.s_captures_fail + 1) % 2 ^ 32, nullptr⟩ ∧
    (camera_capture_rgb565 mem b (some p) (some l) g).globals
      = ⟨g.s_captures_ok, (g.s_captures_fail + 1) % 2 ^ 32, nullptr⟩ ∧
    (camera_capture_rgb565 mem nullptr (some p) (some l) g).effects =
      [ Event.esp_camera_fb_get nullptr, Event.ESP_LOGW TAG "camera capture failed" [] ] ∧
    (camera_capture_rgb565 mem b (some p) (some l) g).effects =
      [ Event.esp_camera_fb_get b
      , Event.ESP_LOGW TAG "unexpected pixel format=%d" [(mem b).format.toInt]
      , Event.esp_camera_fb_return b ] := by
  have hb0 : ¬ b = nullptr := hb
  refine ⟨?_, ?_, ?_, ?_, ?_, ?_, ?_, ?_, ?_, ?_, ?_, ?_, ?_, ?_, ?_⟩ <;>
    simp [camera_capture_rgb565, hb0, hf, returnedBuffers, Event.returnedBuffer, uint32_incr]

/-- Instance of the amended C7 with a JPEG buffer at address 7. -/
theorem C7_failure_modes_share_return_value_witness :
    (camera_capture_rgb565 (fun _ => jpegFrame) nullptr (some 1) (some 2) ⟨3, 5, nullptr⟩).ret = -1 ∧
    (camera_capture_rgb565 (fun _ => jpegFrame) 7 (some 1) (some 2) ⟨3, 5, nullptr⟩).ret = -1 :=
  have h := C7_failure_modes_share_return_value ⟨3, 5, nullptr⟩ (fun _ => jpegFrame) 7 1 2
    (by decide) (by decide)
  ⟨h.1, h.2.1⟩

/-- Claim C8: for every status `s` answered by `esp_camera_init`, the init
function makes exactly these external calls in this order: `gpio_config` of
pad 18 as an output, `gpio_set_level(18, 0)`, `vTaskDelay(pdMS_TO_TICKS(100))`,
then one `esp_camera_init` with pixel format RGB565 and frame size QVGA, and
after them nothing but the error log line of a failed initialisation; it
returns 0 exactly when `s` is `ESP_OK` and -1 otherwise.  The delay is 100 ms
of ticks whenever the tick rate is a multiple of 10 Hz. -/
theorem C8_init_sequence (configTICK_RATE_HZ : Nat) (s : Int) :
    (pipecat_camera_init_gc0308 configTICK_RATE_HZ s).2.filter (fun e => !e.isLog) =
      [ Event.gpio_config cam_power_cfg
      , Event.gpio_set_level 18 0
      , Event.vTaskDelay (pdMS_TO_TICKS configTICK_RATE_HZ 100)
      , Event.esp_camera_init config ] ∧
    (pipecat_camera_init_gc0308 configTICK_RATE_HZ s).2 =
      [ Event.gpio_config cam_power_cfg
      , Event.gpio_set_level 18 0
      , Event.vTaskDelay (pdMS_TO_TICKS configTICK_RATE_HZ 100)
      , Event.esp_camera_init config ] ++
      (if s = ESP_OK then [] else [Event.ESP_LOGE TAG "esp_camera_init failed: %d" [s]]) ∧
    cam_power_cfg.pin_bit_mask = 2 ^ 18 ∧
    cam_power_cfg.mode = gpio_mode_t.GPIO_MODE_OUTPUT ∧
    config.pixel_format = pixformat_t.PIXFORMAT_RGB565 ∧
    config.frame_size = framesize_t.FRAMESIZE_QVGA ∧
    ((pipecat_camera_init_gc0308 configTICK_RATE_HZ s).1 = 0 ↔ s = ESP_OK) ∧
    ((pipecat_camera_init_gc0308 configTICK_RATE_HZ s).1 = -1 ↔ s ≠ ESP_OK) ∧
    (10 ∣ configTICK_RATE_HZ →
      pdMS_TO_TICKS configTICK_RATE_HZ 100 * 1000 = 100 * configTICK_RATE_HZ) := by
  refine ⟨?_, ?_, rfl, rfl, rfl, rfl, ?_, ?_, ?_⟩
  · by_cases h : s = ESP_OK <;> simp [pipecat_camera_init_gc0308, h, Event.isLog]
  · by_cases h : s = ESP_OK <;> simp [pipecat_camera_init_gc0308, h]
  · by_cases h : s = ESP_OK <;> simp [pipecat_camera_init_gc0308, h]
  · by_cases h : s = ESP_OK <;> simp [pipecat_camera_init_gc0308, h]
  · rintro ⟨k, rfl⟩
    unfold pdMS_TO_TICKS
    omega

/-- Instance of C8 at a tick rate of 100 Hz: the delay is 10 ticks, i.e. 100 ms. -/
theorem C8_init_sequence_witness :
    pdMS_TO_TICKS 100 100 * 1000 = 100 * 100 ∧
    ((pipecat_camera_init_gc0308 100 261).1 = -1 ↔ (261 : Int) ≠ ESP_OK) :=
  ⟨(C8_init_sequence 100 0).2.2.2.2.2.2.2.2 (by decide), (C8_init_sequence 100 261).2.2.2.2.2.2.2.1⟩

/-! ## Sequences: the counters -/

theorem run_concat (w : World) (cs : List Call) (c : Call) :
    run w (cs ++ [c]) = step (run w cs) c := by
  simp [run, List.foldl_append]

theorem validCaptures_concat (cs : List Call) (c : Call) :
    validCaptures (cs ++ [c]) = validCaptures cs + (if c.isValidCapture then 1 else 0) := by
  simp [validCaptures, List.countP_append, List.countP_cons]

/-- One call changes the counters as follows: a capture with valid
out-pointers increments exactly one of them (as a `uint32_t`), every other
call keeps both. -/
theorem step_counters (w : World) (c : Call) :
    (c.isValidCapture = true →
      ((step w c).globals.s_captures_ok = uint32_incr w.globals.s_captures_ok ∧
        (step w c).globals.s_captures_fail = w.globals.s_captures_fail) ∨
      ((step w c).globals.s_captures_ok = w.globals.s_captures_ok ∧
        (step w c).globals.s_captures_fail = uint32_incr w.globals.s_captures_fail)) ∧
    (c.isValidCapture = false →
      (step w c).globals.s_captures_ok = w.globals.s_captures_ok ∧
      (step w c).globals.s_captures_fail = w.globals.s_captures_fail) := by
  cases c with
  | release =>
      by_cases h : w.globals.s_last_fb = nullptr <;>
        simp [step, camera_release_frame, Call.isValidCapture, h]
  | capture out_ptr out_len mem fb =>
      cases out_ptr <;> cases out_len <;>
        simp [step, camera_capture_rgb565, Call.isValidCapture]
      by_cases h1 : fb = nullptr
      · simp [h1]
      · by_cases h2 : (mem fb).format = pixformat_t.PIXFORMAT_RGB565 <;> simp [h1, h2]

/-- From zeroed counters, the counters are the numbers of successful and of
failed valid captures, each reduced modulo `2 ^ 32`. -/
theorem counters_split (slot : Nat) (tr : List Event) (cs : List Call) :
    ∃ a b, a + b = validCaptures cs ∧
      (run ⟨⟨0, 0, slot⟩, tr⟩ cs).globals.s_captures_ok = a % 2 ^ 32 ∧
      (run ⟨⟨0, 0, slot⟩, tr⟩ cs).globals.s_captures_fail = b % 2 ^ 32 := by
  induction cs using List.reverseRecOn with
  | nil => exact ⟨0, 0, rfl, rfl, rfl⟩
  | append_singleton cs c ih =>
      obtain ⟨a, b, hab, ha, hb⟩ := ih
      rw [run_concat, validCaptures_concat]
      have hs := step_counters (run ⟨⟨0, 0, slot⟩, tr⟩ cs) c
      by_cases hc : c.isValidCapture = true
      · rcases hs.1 hc with ⟨h1, h2⟩ | ⟨h1, h2⟩
        · refine ⟨a + 1, b, by simp [hc]; omega, ?_, ?_⟩
          · rw [h1, ha, uint32_incr, Nat.mod_add_mod]
          · rw [h2, hb]
        · refine ⟨a, b + 1, by simp [hc]; omega, ?_, ?_⟩
          · rw [h1, ha]
          · rw [h2, hb, uint32_incr, Nat.mod_add_mod]
      · have hc0 : c.isValidCapture = false := by simpa using hc
        obtain ⟨h1, h2⟩ := hs.2 hc0
        exact ⟨a, b, by simp [hc0, hab], by rw [h1, ha], by rw [h2, hb]⟩

theorem validCaptures_le_of_append (pre t : List Call) :
    validCaptures pre ≤ validCaptures (pre ++ t) := by
  simp [validCaptures, List.countP_append]

/-- Repeating the no-buffer capture `n` times from the initial globals. -/
theorem run_noBuffer_replicate (tr : List Event) (n : Nat) :
    (run ⟨Globals.init, tr⟩ (List.replicate n noBufferCall)).globals.s_captures_ok = 0 ∧
    (run ⟨Globals.init, tr⟩ (List.replicate n noBufferCall)).globals.s_captures_fail
      = n % 2 ^ 32 := by
  induction n with
  | zero => exact ⟨rfl, rfl⟩
  | succ n ih =>
      rw [List.replicate_succ', run_concat]
      obtain ⟨h1, h2⟩ := ih
      constructor
      · rw [← h1]
        simp [step, noBufferCall, camera_capture_rgb565]
      · have : (step (run ⟨Globals.init, tr⟩ (List.replicate n noBufferCall))
            noBufferCall).globals.s_captures_fail
            = uint32_incr (run ⟨Globals.init, tr⟩
                (List.replicate n noBufferCall)).globals.s_captures_fail := by
          simp [step, noBufferCall, camera_capture_rgb565]
        rw [this, h2, uint32_incr, Nat.mod_add_mod]

/-- Claim C1, refuted as stated.  (1) One capture call with a null `out_ptr`
leaves both counters at zero, so their sum is not the number of capture calls.
(2) After `2 ^ 32` captures during which the driver answers null the sum is 0
again, and the last of them took the failure counter from `2 ^ 32 - 1` down
to 0. -/
theorem C1_sum_misses_rejected_calls_and_wraps :
    camera_get_captures_ok (run ⟨Globals.init, []⟩
        [Call.capture none (some 0) (fun _ => qvgaFrame) 7]).globals
      + camera_get_captures_fail (run ⟨Globals.init, []⟩
        [Call.capture none (some 0) (fun _ => qvgaFrame) 7]).globals
      ≠ [Call.capture none (some 0) (fun _ => qvgaFrame) 7].length ∧
    camera_get_captures_ok (run ⟨Globals.init, []⟩
        (List.replicate (2 ^ 32) noBufferCall)).globals
      + camera_get_captures_fail (run ⟨Globals.init, []⟩
        (List.replicate (2 ^ 32) noBufferCall)).globals
      ≠ (List.replicate (2 ^ 32) noBufferCall).length ∧
    camera_get_captures_fail (run ⟨Globals.init, []⟩
        (List.replicate (2 ^ 32 - 1) noBufferCall)).globals = 2 ^ 32 - 1 ∧
    camera_get_captures_fail (step (run ⟨Globals.init, []⟩
        (List.replicate (2 ^ 32 - 1) noBufferCall)) noBufferCall).globals = 0 := by
  have hA := run_noBuffer_replicate [] (2 ^ 32)
  have hB := run_noBuffer_replicate [] (2 ^ 32 - 1)
  refine ⟨?_, ?_, ?_, ?_⟩
  · simp [run, step, camera_capture_rgb565, camera_get_captures_ok, camera_get_captures_fail,
      Globals.init]
  · rw [camera_get_captures_ok, camera_get_captures_fail, hA.1, hA.2, List.length_replicate]
    norm_num
  · rw [camera_get_captures_fail, hB.2]
    norm_num
  · rw [← run_concat, ← List.replicate_succ', camera_get_captures_fail]
    have hC := run_noBuffer_replicate [] (2 ^ 32 - 1 + 1)
    rw [hC.2]
    norm_num

/-- Claim C1, amended: starting from both counters at zero, after any
sequence of calls of which `N` are captures with both out-pointers non-null,
the counters are `a mod 2 ^ 32` and `b mod 2 ^ 32` for some `a + b = N`; every
capture with non-null out-pointers increments exactly one of the two counters
(as a `uint32_t`) and every other call (a capture with a null out-pointer, a
release) keeps both; a capture with a null out-pointer returns -1 right away,
without asking the driver, writing an out-cell or changing a global, so the
globals and the trace are as before it; and as long as `N < 2 ^ 32` the sum of the counters is
exactly `N` and neither counter is smaller after a call than before it. -/
theorem C1_counters_count_valid_captures (slot : Nat) (tr : List Event) (cs : List Call) :
    (∃ a b, a + b = validCaptures cs ∧
      camera_get_captures_ok (run ⟨⟨0, 0, slot⟩, tr⟩ cs).globals = a % 2 ^ 32 ∧
      camera_get_captures_fail (run ⟨⟨0, 0, slot⟩, tr⟩ cs).globals = b % 2 ^ 32) ∧
    (∀ (w : World) (c : Call),
      (c.isValidCapture = true →
        (camera_get_captures_ok (step w c).globals
            = (camera_get_captures_ok w.globals + 1) % 2 ^ 32 ∧
          camera_get_captures_fail (step w c).globals = camera_get_captures_fail w.globals) ∨
        (camera_get_captures_ok (step w c).globals = camera_get_captures_ok w.globals ∧
          camera_get_captures_fail (step w c).globals
            = (camera_get_captures_fail w.globals + 1) % 2 ^ 32)) ∧
      (c.isValidCapture = false →
        camera_get_captures_ok (step w c).globals = camera_get_captures_ok w.globals ∧
        camera_get_captures_fail (step w c).globals = camera_get_captures_fail w.globals)) ∧
    (∀ (mem : Nat → camera_fb_t) (fb : Nat) (out_ptr out_len : Option Nat) (g : Globals),
      out_ptr = none ∨ out_len = none →
        camera_capture_rgb565 mem fb out_ptr out_len g = ⟨-1, g, out_ptr, out_len, []⟩) ∧
    (∀ (w : World) (c : Call), c.isValidCapture = false →
      (step w c).globals.s_captures_ok = w.globals.s_captures_ok ∧
      (step w c).globals.s_captures_fail = w.globals.s_captures_fail ∧
      (c.isCapture = true → step w c = w)) ∧
    (validCaptures cs < 2 ^ 32 →
      camera_get_captures_ok (run ⟨⟨0, 0, slot⟩, tr⟩ cs).globals
        + camera_get_captures_fail (run ⟨⟨0, 0, slot⟩, tr⟩ cs).globals = validCaptures cs ∧
      ∀ (pre : List Call) (c : Call), pre ++ [c] <+: cs →
        camera_get_captures_ok (run ⟨⟨0, 0, slot⟩, tr⟩ pre).globals
          ≤ camera_get_captures_ok (run ⟨⟨0, 0, slot⟩, tr⟩ (pre ++ [c])).globals ∧
        camera_get_captures_fail (run ⟨⟨0, 0, slot⟩, tr⟩ pre).globals
          ≤ camera_get_captures_fail (run ⟨⟨0, 0, slot⟩, tr⟩ (pre ++ [c])).globals) := by
  refine ⟨counters_split slot tr cs, fun w c => step_counters w c, ?_, ?_, fun hN => ⟨?_, ?_⟩⟩
  · rintro mem fb out_ptr out_len g (h | h) <;> simp [camera_capture_rgb565, h]
  · intro w c hc
    refine ⟨((step_counters w c).2 hc).1, ((step_counters w c).2 hc).2, ?_⟩
    cases c with
    | release => intro h; simp [Call.isCapture] at h
    | capture out_ptr out_len mem fb =>
        intro _
        cases out_ptr <;> cases out_len <;>
          simp [Call.isValidCapture] at hc <;> simp [step, camera_capture_rgb565]
  · obtain ⟨a, b, hab, ha, hb⟩ := counters_split slot tr cs
    rw [camera_get_captures_ok, camera_get_captures_fail, ha, hb,
      Nat.mod_eq_of_lt (by omega), Nat.mod_eq_of_lt (by omega), hab]
  · rintro pre c ⟨t, rfl⟩
    obtain ⟨a, b, hab, ha, hb⟩ := counters_split slot tr pre
    have hle := validCaptures_le_of_append (pre ++ [c]) t
    rw [validCaptures_concat] at hle
    have hs := step_counters (run ⟨⟨0, 0, slot⟩, tr⟩ pre) c
    rw [run_concat]
    simp only [camera_get_captures_ok, camera_get_captures_fail]
    by_cases hc : c.isValidCapture = true
    · simp only [hc, if_true] at hle
      rcases hs.1 hc with ⟨h1, h2⟩ | ⟨h1, h2⟩
      · rw [h1, h2, ha, uint32_incr, Nat.mod_add_mod, Nat.mod_eq_of_lt (by omega),
          Nat.mod_eq_of_lt (by omega)]
        omega
      · rw [h1, h2, hb, uint32_incr, Nat.mod_add_mod, Nat.mod_eq_of_lt (by omega),
          Nat.mod_eq_of_lt (by omega)]
        omega
    · have hc0 : c.isValidCapture = false := by simpa using hc
      obtain ⟨h1, h2⟩ := hs.2 hc0
      rw [h1, h2]
      exact ⟨le_refl _, le_refl _⟩

/-- Instance of the amended C1: a successful capture, a capture rejected for
its null `out_ptr`, a release and a capture without buffer give counters 1
and 1, with `N = 2`. -/
theorem C1_counters_count_valid_captures_witness :
    camera_get_captures_ok (run ⟨⟨0, 0, nullptr⟩, []⟩
        [ Call.capture (some 0) (some 0) (fun _ => qvgaFrame) 7
        , Call.capture none (some 0) (fun _ => qvgaFrame) 7
        , Call.release
        , Call.capture (some 0) (some 0) (fun _ => qvgaFrame) nullptr ]).globals
      + camera_get_captures_fail (run ⟨⟨0, 0, nullptr⟩, []⟩
        [ Call.capture (some 0) (some 0) (fun _ => qvgaFrame) 7
        , Call.capture none (some 0) (fun _ => qvgaFrame) 7
        , Call.release
        , Call.capture (some 0) (some 0) (fun _ => qvgaFrame) nullptr ]).globals
      = 2 :=
  ((C1_counters_count_valid_captures nullptr []
      [ Call.capture (some 0) (some 0) (fun _ => qvgaFrame) 7
      , Call.capture none (some 0) (fun _ => qvgaFrame) 7
      , Call.release
      , Call.capture (some 0) (some 0) (fun _ => qvgaFrame) nullptr ]).2.2.2.2
    (by decide)).1

/-! ## Sequences: buffer ownership -/

theorem outstanding_nil : outstanding [] = 0 := by
  simp [outstanding, acquiredBuffers, returnedBuffers]

theorem outstanding_append (tr es : List Event) :
    outstanding (tr ++ es) = outstanding tr + outstanding es := by
  simp only [outstanding, acquiredBuffers, returnedBuffers, List.filterMap_append,
    List.length_append]
  push_cast
  ring

theorem bounded_nil : Bounded [] := by
  intro p hp
  rw [List.prefix_nil] at hp
  subst hp
  simp [outstanding_nil]

theorem bounded_concat (tr : List Event) (e : Event) (h : Bounded tr)
    (he : 0 ≤ outstanding (tr ++ [e]) ∧ outstanding (tr ++ [e]) ≤ 1) :
    Bounded (tr ++ [e]) := by
  intro p hp
  rcases List.prefix_concat_iff.mp hp with rfl | hp
  · exact he
  · exact h p hp

theorem alternates_concat (cs : List Call) (c : Call) (h : alternates (cs ++ [c]) = true) :
    alternates cs = true ∧ ∀ x ∈ cs.getLast?, x.isCapture ≠ c.isCapture := by
  induction cs with
  | nil => simp [alternates]
  | cons a t ih =>
      cases t with
      | nil =>
          simp [alternates] at h
          simpa [alternates] using h
      | cons b t =>
          simp only [List.cons_append, alternates, Bool.and_eq_true] at h
          obtain ⟨hab, ht⟩ := h
          obtain ⟨h1, h2⟩ := ih ht
          refine ⟨by simp [alternates, hab, h1], ?_⟩
          simpa [List.getLast?_cons_cons] using h2

theorem alternates_of_append (pre t : List Call) (h : alternates (pre ++ t) = true) :
    alternates pre = true := by
  induction t using List.reverseRecOn with
  | nil => simpa using h
  | append_singleton t x ih =>
      rw [← List.append_assoc] at h
      exact ih (alternates_concat _ _ h).1

theorem altInv_release (cs : List Call) (w : World) (h : AltInv cs w) :
    AltInv (cs ++ [Call.release]) (step w Call.release) := by
  obtain ⟨hb, ho, _⟩ := h
  by_cases hs : w.globals.s_last_fb = nullptr
  · simp only [hs, if_true] at ho
    refine ⟨?_, ?_, ?_⟩ <;> simp [step, camera_release_frame, hs, hb, ho]
  · simp only [hs, if_false] at ho
    have ho1 : outstanding (w.trace ++ [Event.esp_camera_fb_return w.globals.s_last_fb]) = 0 := by
      rw [outstanding_append, ho]
      simp [outstanding, acquiredBuffers, returnedBuffers, Event.acquiredBuffer,
        Event.returnedBuffer]
    refine ⟨?_, ?_, ?_⟩
    · simp only [step, camera_release_frame, hs, ne_eq, not_false_eq_true, if_true]
      exact bounded_concat _ _ hb (by rw [ho1]; decide)
    · simp only [step, camera_release_frame, hs, ne_eq, not_false_eq_true, if_true]
      simpa using ho1
    · intro _
      simp [step, camera_release_frame, hs]

theorem altInv_capture (cs : List Call) (w : World) (h : AltInv cs w)
    (hs : w.globals.s_last_fb = nullptr) (out_ptr out_len : Option Nat)
    (mem : Nat → camera_fb_t) (fb : Nat) :
    AltInv (cs ++ [Call.capture out_ptr out_len mem fb])
      (step w (Call.capture out_ptr out_len mem fb)) := by
  obtain ⟨hb, ho, _⟩ := h
  simp only [hs, if_true] at ho
  have hlast : ¬ ∀ x ∈ (cs ++ [Call.capture out_ptr out_len mem fb]).getLast?,
      x.isCapture = false := by
    simp [List.getLast?_concat, Call.isCapture]
  by_cases hargs : (out_ptr.isNone || out_len.isNone) = true
  · refine ⟨?_, ?_, fun hl => absurd hl hlast⟩ <;>
      simp [step, camera_capture_rgb565, hargs, hb, ho, hs]
  · by_cases h1 : fb = nullptr
    · have e1 : outstanding (w.trace ++ [Event.esp_camera_fb_get fb]) = 0 := by
        rw [outstanding_append, ho]
        simp [outstanding, acquiredBuffers, returnedBuffers, Event.acquiredBuffer,
          Event.returnedBuffer, h1]
      have e2 : outstanding ((w.trace ++ [Event.esp_camera_fb_get fb]) ++
          [Event.ESP_LOGW TAG "camera capture failed" []]) = 0 := by
        rw [outstanding_append, e1]
        simp [outstanding, acquiredBuffers, returnedBuffers, Event.acquiredBuffer,
          Event.returnedBuffer]
      have hB := bounded_concat _ _ (bounded_concat _ _ hb (by rw [e1]; decide))
        (by rw [e2]; decide)
      refine ⟨?_, ?_, fun hl => absurd hl hlast⟩
      · simpa [step, camera_capture_rgb565, hargs, h1] using hB
      · simpa [step, camera_capture_rgb565, hargs, h1] using e2
    · by_cases h2 : (mem fb).format = pixformat_t.PIXFORMAT_RGB565
      · have e1 : outstanding (w.trace ++ [Event.esp_camera_fb_get fb]) = 1 := by
          rw [outstanding_append, ho]
          simp [outstanding, acquiredBuffers, returnedBuffers, Event.acquiredBuffer,
            Event.returnedBuffer, h1]
        have hB := bounded_concat _ _ hb (by rw [e1]; decide)
        refine ⟨?_, ?_, fun hl => absurd hl hlast⟩
        · simpa [step, camera_capture_rgb565, hargs, h1, h2] using hB
        · simpa [step, camera_capture_rgb565, hargs, h1, h2] using e1
      · have e1 : outstanding (w.trace ++ [Event.esp_camera_fb_get fb]) = 1 := by
          rw [outstanding_append, ho]
          simp [outstanding, acquiredBuffers, returnedBuffers, Event.acquiredBuffer,
            Event.returnedBuffer, h1]
        have e2 : outstanding ((w.trace ++ [Event.esp_camera_fb_get fb]) ++
            [Event.ESP_LOGW TAG "unexpected pixel format=%d" [(mem fb).format.toInt]]) = 1 := by
          rw [outstanding_append, e1]
          simp [outstanding, acquiredBuffers, returnedBuffers, Event.acquiredBuffer,
            Event.returnedBuffer]
        have e3 : outstanding (((w.trace ++ [Event.esp_camera_fb_get fb]) ++
            [Event.ESP_LOGW TAG "unexpected pixel format=%d" [(mem fb).format.toInt]]) ++
            [Event.esp_camera_fb_return fb]) = 0 := by
          rw [outstanding_append, e2]
          simp [outstanding, acquiredBuffers, returnedBuffers, Event.acquiredBuffer,
            Event.returnedBuffer]
        have hB := bounded_concat _ _ (bounded_concat _ _ (bounded_concat _ _ hb
          (by rw [e1]; decide)) (by rw [e2]; decide)) (by rw [e3]; decide)
        refine ⟨?_, ?_, fun hl => absurd hl hlast⟩
        · simpa [step, camera_capture_rgb565, hargs, h1, h2] using hB
        · simpa [step, camera_capture_rgb565, hargs, h1, h2] using e3

theorem altInv_run (g : Globals) (hg : g.s_last_fb = nullptr) (cs : List Call)
    (halt : alternates cs = true) : AltInv cs (run ⟨g, []⟩ cs) := by
  induction cs using List.reverseRecOn with
  | nil =>
      refine ⟨bounded_nil, ?_, fun _ => hg⟩
      simp [run, hg, outstanding_nil]
  | append_singleton cs c ih =>
      obtain ⟨hcs, hlast⟩ := alternates_concat cs c halt
      have hI := ih hcs
      rw [run_concat]
      cases c with
      | release => exact altInv_release cs _ hI
      | capture out_ptr out_len mem fb =>
          refine altInv_capture cs _ hI (hI.2.2 ?_) out_ptr out_len mem fb
          intro x hx
          have := hlast x hx
          simpa [Call.isCapture] using this

/-- Claim C5: in every strictly alternating sequence of captures and releases
started with an empty slot, whatever the arguments and the driver answers, at
every point of the trace the number of buffers obtained from
`esp_camera_fb_get` and not yet passed to `esp_camera_fb_return` is between 0
and 1, and right after every release the slot is empty and that number is 0. -/
theorem C5_single_outstanding (g : Globals) (hg : g.s_last_fb = nullptr) (cs : List Call)
    (halt : alternates cs = true) :
    (∀ p, p <+: (run ⟨g, []⟩ cs).trace → 0 ≤ outstanding p ∧ outstanding p ≤ 1) ∧
    (∀ pre, pre ++ [Call.release] <+: cs →
      (run ⟨g, []⟩ (pre ++ [Call.release])).globals.s_last_fb = nullptr ∧
      outstanding (run ⟨g, []⟩ (pre ++ [Call.release])).trace = 0) := by
  refine ⟨(altInv_run g hg cs halt).1, ?_⟩
  rintro pre ⟨t, rfl⟩
  have hI := altInv_run g hg (pre ++ [Call.release]) (alternates_of_append _ _ halt)
  have hslot := hI.2.2 (by simp [List.getLast?_concat, Call.isCapture])
  refine ⟨hslot, ?_⟩
  have := hI.2.1
  rwa [if_pos hslot] at this

/-- Instance of C5: a successful capture, a release, a wrong-format capture
and a release; the slot is empty after the first release. -/
theorem C5_single_outstanding_witness :
    alternates
      [ Call.capture (some 0) (some 0) (fun _ => qvgaFrame) 7
      , Call.release
      , Call.capture (some 0) (some 0) (fun _ => jpegFrame) 9
      , Call.release ] = true ∧
    (run ⟨Globals.init, []⟩
      ([Call.capture (some 0) (some 0) (fun _ => qvgaFrame) 7] ++ [Call.release])
      ).globals.s_last_fb = nullptr :=
  ⟨by decide,
   ((C5_single_outstanding Globals.init rfl
      [ Call.capture (some 0) (some 0) (fun _ => qvgaFrame) 7
      , Call.release
      , Call.capture (some 0) (some 0) (fun _ => jpegFrame) 9
      , Call.release ] (by decide)).2
      [Call.capture (some 0) (some 0) (fun _ => qvgaFrame) 7]
      ⟨[Call.capture (some 0) (some 0) (fun _ => jpegFrame) 9, Call.release], rfl⟩).1⟩

theorem lastGet_concat_get (tr : List Event) (r : Nat) :
    lastGet (tr ++ [Event.esp_camera_fb_get r]) = some r := by
  simp [lastGet, List.filterMap_append, Event.getResult]

theorem lastGet_concat_other (tr : List Event) (e : Event) (he : e.getResult = none) :
    lastGet (tr ++ [e]) = lastGet tr := by
  simp [lastGet, List.filterMap_append, he]

theorem sinceLastGet_concat_get (tr : List Event) (r : Nat) :
    sinceLastGet (tr ++ [Event.esp_camera_fb_get r]) = [] := by
  unfold sinceLastGet
  exact List.rtakeWhile_concat_neg _ _ _ (by simp [Event.getResult])

theorem sinceLastGet_concat_other (tr : List Event) (e : Event) (he : e.getResult = none) :
    sinceLastGet (tr ++ [e]) = sinceLastGet tr ++ [e] := by
  unfold sinceLastGet
  exact List.rtakeWhile_concat_pos _ _ _ (by simp [he])

theorem traceOK_nil : TraceOK [] := by
  constructor
  · intro p b hp
    rw [List.prefix_nil] at hp
    simp at hp
  · intro p hp
    rw [List.prefix_nil] at hp
    subst hp
    simp [returnedBuffers, acquiredBuffers]

theorem traceOK_concat (tr : List Event) (e : Event) (h : TraceOK tr)
    (hret : ∀ b, e = Event.esp_camera_fb_return b → RetOK tr b)
    (hcount : (returnedBuffers (tr ++ [e])).length ≤ (acquiredBuffers (tr ++ [e])).length) :
    TraceOK (tr ++ [e]) := by
  constructor
  · intro p b hp
    rcases List.prefix_concat_iff.mp hp with heq | hp
    · obtain ⟨h1, h2⟩ := List.append_inj' heq rfl
      subst h1
      exact hret b (by simpa using h2.symm)
    · exact h.1 p b hp
  · intro p hp
    rcases List.prefix_concat_iff.mp hp with rfl | hp
    · exact hcount
    · exact h.2 p hp

theorem returned_concat (tr : List Event) (e : Event) :
    (returnedBuffers (tr ++ [e])).length
      = (returnedBuffers tr).length + (if e.returnedBuffer.isSome then 1 else 0) := by
  cases h : e.returnedBuffer <;> simp [returnedBuffers, List.filterMap_append, h]

theorem acquired_concat (tr : List Event) (e : Event) :
    (acquiredBuffers (tr ++ [e])).length
      = (acquiredBuffers tr).length + (if e.acquiredBuffer.isSome then 1 else 0) := by
  cases h : e.acquiredBuffer <;> simp [acquiredBuffers, List.filterMap_append, h]

theorem ownInv_release (w : World) (h : OwnInv w) : OwnInv (step w Call.release) := by
  obtain ⟨ht, hslot, hc⟩ := h
  by_cases hs : w.globals.s_last_fb = nullptr
  · rw [if_pos hs] at hc
    have hc0 : (returnedBuffers w.trace).length ≤ (acquiredBuffers w.trace).length := by omega
    refine ⟨?_, ?_, ?_⟩ <;> simp [step, camera_release_frame, hs, ht, hc0]
  · rw [if_neg hs] at hc
    have hlen : (returnedBuffers (w.trace ++ [Event.esp_camera_fb_return w.globals.s_last_fb])).length
        ≤ (acquiredBuffers (w.trace ++ [Event.esp_camera_fb_return w.globals.s_last_fb])).length := by
      rw [returned_concat, acquired_concat]
      simp [Event.returnedBuffer, Event.acquiredBuffer]
      exact hc
    have hT := traceOK_concat w.trace (Event.esp_camera_fb_return w.globals.s_last_fb) ht
      (fun b hb => by
        have : w.globals.s_last_fb = b := by simpa using hb
        subst this
        exact ⟨hs, (hslot hs).1, (hslot hs).2⟩) hlen
    refine ⟨?_, ?_, ?_⟩
    · simpa [step, camera_release_frame, hs] using hT
    · simp [step, camera_release_frame, hs]
    · simpa [step, camera_release_frame, hs] using hlen

theorem ownInv_capture (w : World) (h : OwnInv w) (out_ptr out_len : Option Nat)
    (mem : Nat → camera_fb_t) (fb : Nat) :
    OwnInv (step w (Call.capture out_ptr out_len mem fb)) := by
  obtain ⟨ht, hslot, hc⟩ := h
  have hle : (returnedBuffers w.trace).length ≤ (acquiredBuffers w.trace).length := by
    omega
  by_cases hargs : (out_ptr.isNone || out_len.isNone) = true
  · exact ⟨by simpa [step, camera_capture_rgb565, hargs] using ht,
      by simpa [step, camera_capture_rgb565, hargs] using hslot,
      by simpa [step, camera_capture_rgb565, hargs] using hc⟩
  · have c1 : (returnedBuffers (w.trace ++ [Event.esp_camera_fb_get fb])).length
        = (returnedBuffers w.trace).length := by
      rw [returned_concat]; simp [Event.returnedBuffer]
    have a1 : (acquiredBuffers (w.trace ++ [Event.esp_camera_fb_get fb])).length
        = (acquiredBuffers w.trace).length + (if fb = nullptr then 0 else 1) := by
      rw [acquired_concat]
      by_cases h1 : fb = nullptr <;> simp [Event.acquiredBuffer, h1]
    have T1 : TraceOK (w.trace ++ [Event.esp_camera_fb_get fb]) :=
      traceOK_concat _ _ ht (fun b hb => by simp at hb) (by rw [c1, a1]; omega)
    by_cases h1 : fb = nullptr
    · rw [if_pos h1] at a1
      have T2 : TraceOK ((w.trace ++ [Event.esp_camera_fb_get fb]) ++
          [Event.ESP_LOGW TAG "camera capture failed" []]) :=
        traceOK_concat _ _ T1 (fun b hb => by simp at hb) (by
          rw [returned_concat, acquired_concat, c1, a1]
          simpa [Event.returnedBuffer, Event.acquiredBuffer] using hle)
      refine ⟨?_, ?_, ?_⟩
      · simpa [step, camera_capture_rgb565, hargs, h1] using T2
      · simp [step, camera_capture_rgb565, hargs, h1]
      · have := T2.2 _ (List.prefix_refl _)
        simpa [step, camera_capture_rgb565, hargs, h1] using this
    · rw [if_neg h1] at a1
      by_cases h2 : (mem fb).format = pixformat_t.PIXFORMAT_RGB565
      · refine ⟨?_, ?_, ?_⟩
        · simpa [step, camera_capture_rgb565, hargs, h1, h2] using T1
        · intro _
          have e1 := lastGet_concat_get w.trace fb
          have e2 := sinceLastGet_concat_get w.trace fb
          simp [step, camera_capture_rgb565, hargs, h1, h2, e1, e2, returnedBuffers]
        · have : (returnedBuffers (w.trace ++ [Event.esp_camera_fb_get fb])).length + 1
              ≤ (acquiredBuffers (w.trace ++ [Event.esp_camera_fb_get fb])).length := by
            rw [c1, a1]; omega
          simpa [step, camera_capture_rgb565, hargs, h1, h2] using this
      · have T2 : TraceOK ((w.trace ++ [Event.esp_camera_fb_get fb]) ++
            [Event.ESP_LOGW TAG "unexpected pixel format=%d" [(mem fb).format.toInt]]) :=
          traceOK_concat _ _ T1 (fun b hb => by simp at hb) (by
            rw [returned_concat, acquired_concat, c1, a1]
            simp [Event.returnedBuffer, Event.acquiredBuffer]
            omega)
        have hR : RetOK ((w.trace ++ [Event.esp_camera_fb_get fb]) ++
            [Event.ESP_LOGW TAG "unexpected pixel format=%d" [(mem fb).format.toInt]]) fb := by
          refine ⟨h1, ?_, ?_⟩
          · rw [lastGet_concat_other _ (Event.ESP_LOGW _ _ _) rfl, lastGet_concat_get]
          · rw [sinceLastGet_concat_other _ (Event.ESP_LOGW _ _ _) rfl, sinceLastGet_concat_get]
            simp [returnedBuffers, Event.returnedBuffer]
        have hlen : (returnedBuffers (((w.trace ++ [Event.esp_camera_fb_get fb]) ++
            [Event.ESP_LOGW TAG "unexpected pixel format=%d" [(mem fb).format.toInt]]) ++
            [Event.esp_camera_fb_return fb])).length
            ≤ (acquiredBuffers (((w.trace ++ [Event.esp_camera_fb_get fb]) ++
            [Event.ESP_LOGW TAG "unexpected pixel format=%d" [(mem fb).format.toInt]]) ++
            [Event.esp_camera_fb_return fb])).length := by
          rw [returned_concat, acquired_concat, returned_concat, acquired_concat, c1, a1]
          simp [Event.returnedBuffer, Event.acquiredBuffer]
          omega
        have T3 := traceOK_concat _ (Event.esp_camera_fb_return fb) T2
          (fun b hb => by
            have : fb = b := by simpa using hb
            subst this
            exact hR) hlen
        refine ⟨?_, ?_, ?_⟩
        · simpa [step, camera_capture_rgb565, hargs, h1, h2] using T3
        · simp [step, camera_capture_rgb565, hargs, h1, h2]
        · simpa [step, camera_capture_rgb565, hargs, h1, h2] using hlen

theorem ownInv_run (g : Globals) (hg : g.s_last_fb = nullptr) (cs : List Call) :
    OwnInv (run ⟨g, []⟩ cs) := by
  induction cs using List.reverseRecOn with
  | nil =>
      refine ⟨traceOK_nil, fun h => absurd hg h, ?_⟩
      simp [run, hg, returnedBuffers, acquiredBuffers]
  | append_singleton cs c ih =>
      rw [run_concat]
      cases c with
      | release => exact ownInv_release _ ih
      | capture out_ptr out_len mem fb => exact ownInv_capture _ ih out_ptr out_len mem fb

/-- Claim C10: for every finite sequence of captures and releases in any
order started with an empty slot (any arguments, null out-pointers included,
any driver answers), every `esp_camera_fb_return` call passes a non-null
buffer that is the answer of the most recent `esp_camera_fb_get` call, no
other return has happened since that `esp_camera_fb_get` call (so no answer
is handed back twice), and at every point of the trace the number of returns
is at most the number of non-null acquisitions. -/
theorem C10_no_double_free (g : Globals) (hg : g.s_last_fb = nullptr) (cs : List Call) :
    (∀ p b, p ++ [Event.esp_camera_fb_return b] <+: (run ⟨g, []⟩ cs).trace →
      b ≠ nullptr ∧ lastGet p = some b ∧ returnedBuffers (sinceLastGet p) = []) ∧
    (∀ p, p <+: (run ⟨g, []⟩ cs).trace →
      (returnedBuffers p).length ≤ (acquiredBuffers p).length) :=
  (ownInv_run g hg cs).1

/-- Instance of C10: two captures in a row, two releases, then a capture with
a null `out_len`. -/
theorem C10_no_double_free_witness :
    Globals.init.s_last_fb = nullptr ∧
    (returnedBuffers (run ⟨Globals.init, []⟩
      [ Call.capture (some 0) (some 0) (fun _ => qvgaFrame) 7
      , Call.capture (some 0) (some 0) (fun _ => qvgaFrame) 9
      , Call.release
      , Call.release
      , Call.capture (some 0) none (fun _ => qvgaFrame) 7 ]).trace).length
    ≤ (acquiredBuffers (run ⟨Globals.init, []⟩
      [ Call.capture (some 0) (some 0) (fun _ => qvgaFrame) 7
      , Call.capture (some 0) (some 0) (fun _ => qvgaFrame) 9
      , Call.release
      , Call.release
      , Call.capture (some 0) none (fun _ => qvgaFrame) 7 ]).trace).length :=
  ⟨rfl, (C10_no_double_free Globals.init rfl
      [ Call.capture (some 0) (some 0) (fun _ => qvgaFrame) 7
      , Call.capture (some 0) (some 0) (fun _ => qvgaFrame) 9
      , Call.release
      , Call.release
      , Call.capture (some 0) none (fun _ => qvgaFrame) 7 ]).2 _ (List.prefix_refl _)⟩

theorem returnedBuffers_append (tr es : List Event) :
    returnedBuffers (tr ++ es) = returnedBuffers tr ++ returnedBuffers es := by
  simp [returnedBuffers, List.filterMap_append]

/-- A buffer that the module does not hold and that the driver does not
answer during the call is not handed back by the call, and is not held
afterwards. -/
theorem step_keeps_unreturned (b1 : Nat) (hb1 : b1 ≠ nullptr) (w : World) (c : Call)
    (hslot : w.globals.s_last_fb ≠ b1) (htr : b1 ∉ returnedBuffers w.trace)
    (hc : c.driverAnswer ≠ some b1) :
    (step w c).globals.s_last_fb ≠ b1 ∧ b1 ∉ returnedBuffers (step w c).trace := by
  have hb1n : ¬ nullptr = b1 := fun h => hb1 h.symm
  cases c with
  | release =>
      by_cases hs : w.globals.s_last_fb = nullptr
      · simp [step, camera_release_frame, hs, hb1n]
        simpa using htr
      · have hne : ¬ b1 = w.globals.s_last_fb := fun h => hslot h.symm
        simp [step, camera_release_frame, hs, hb1n, returnedBuffers_append, htr]
        simp [returnedBuffers, Event.returnedBuffer, hne]
  | capture out_ptr out_len mem fb =>
      have hfb : ¬ fb = b1 := by simpa [Call.driverAnswer] using hc
      have hfb2 : ¬ b1 = fb := fun h => hfb h.symm
      by_cases hargs : (out_ptr.isNone || out_len.isNone) = true
      · simp [step, camera_capture_rgb565, hargs, hslot]
        simpa using htr
      · by_cases h1 : fb = nullptr
        · simp [step, camera_capture_rgb565, hargs, h1, hb1n, returnedBuffers_append, htr]
          simp [returnedBuffers, Event.returnedBuffer]
        · by_cases h2 : (mem fb).format = pixformat_t.PIXFORMAT_RGB565
          · simp [step, camera_capture_rgb565, hargs, h1, h2, hfb, returnedBuffers_append, htr]
            simp [returnedBuffers, Event.returnedBuffer]
          · simp [step, camera_capture_rgb565, hargs, h1, h2, hb1n, returnedBuffers_append, htr]
            simp [returnedBuffers, Event.returnedBuffer, hfb2]

theorem run_keeps_unreturned (b1 : Nat) (hb1 : b1 ≠ nullptr) (cs : List Call) :
    ∀ w : World, w.globals.s_last_fb ≠ b1 → b1 ∉ returnedBuffers w.trace →
      (∀ c ∈ cs, c.driverAnswer ≠ some b1) →
      b1 ∉ returnedBuffers (run w cs).trace := by
  induction cs with
  | nil => intro w _ htr _; simpa [run] using htr
  | cons c cs ih =>
      intro w hslot htr hcs
      obtain ⟨h1, h2⟩ := step_keeps_unreturned b1 hb1 w c hslot htr
        (hcs c (List.mem_cons_self _ _))
      have := ih (step w c) h1 h2 (fun d hd => hcs d (List.mem_cons_of_mem _ hd))
      simpa [run] using this

/-- Claim C9, refuted as stated: after capture (driver answers buffer 7),
capture (driver answers buffer 9), release, a later capture during which the
driver answers buffer 7 again followed by a release hands buffer 7 back: the
returned buffers are 9, then 7. -/
theorem C9_reissued_first_buffer_is_returned :
    (7 : Nat) ≠ nullptr ∧ (9 : Nat) ≠ nullptr ∧ (7 : Nat) ≠ 9 ∧
    qvgaFrame.format = pixformat_t.PIXFORMAT_RGB565 ∧
    returnedBuffers (run ⟨Globals.init, []⟩
      ([ Call.capture (some 0) (some 0) (fun _ => qvgaFrame) 7
       , Call.capture (some 0) (some 0) (fun _ => qvgaFrame) 9
       , Call.release ] ++
       [ Call.capture (some 0) (some 0) (fun _ => qvgaFrame) 7, Call.release ])).trace
      = [9, 7] ∧
    7 ∈ returnedBuffers (run ⟨Globals.init, []⟩
      ([ Call.capture (some 0) (some 0) (fun _ => qvgaFrame) 7
       , Call.capture (some 0) (some 0) (fun _ => qvgaFrame) 9
       , Call.release ] ++
       [ Call.capture (some 0) (some 0) (fun _ => qvgaFrame) 7, Call.release ])).trace := by
  refine ⟨by decide, by decide, by decide, rfl, ?_, ?_⟩ <;>
    simp [run, step, camera_capture_rgb565, camera_release_frame, qvgaFrame, Globals.init,
      nullptr, returnedBuffers, Event.returnedBuffer]

/-- Claim C9, amended: for non-null RGB565 buffers `b1 ≠ b2`, the sequence capture
(driver answers `b1`), capture (driver answers `b2`), release makes both
captures return 0, leaves `b2` in the slot after the second capture, and makes
exactly one `esp_camera_fb_return` call, with argument `b2`; `b1` is not
handed back by this sequence nor by any later sequence of captures and
releases during which the driver, from which `b1` is still checked out, does
not answer `b1` again. -/
theorem C9_double_capture_leaks_first (g : Globals) (mem1 mem2 : Nat → camera_fb_t)
    (b1 b2 p1 l1 p2 l2 : Nat) (hb1 : b1 ≠ nullptr) (hb2 : b2 ≠ nullptr) (hne : b1 ≠ b2)
    (hf1 : (mem1 b1).format = pixformat_t.PIXFORMAT_RGB565)
    (hf2 : (mem2 b2).format = pixformat_t.PIXFORMAT_RGB565)
    (later : List Call) (hlater : ∀ c ∈ later, c.driverAnswer ≠ some b1) :
    (camera_capture_rgb565 mem1 b1 (some p1) (some l1) g).ret = 0 ∧
    (camera_capture_rgb565 mem2 b2 (some p2) (some l2)
      (camera_capture_rgb565 mem1 b1 (some p1) (some l1) g).globals).ret = 0 ∧
    (run ⟨g, []⟩ [Call.capture (some p1) (some l1) mem1 b1]).globals.s_last_fb = b1 ∧
    (run ⟨g, []⟩ [ Call.capture (some p1) (some l1) mem1 b1
                 , Call.capture (some p2) (some l2) mem2 b2 ]).globals.s_last_fb = b2 ∧
    (run ⟨g, []⟩ [ Call.capture (some p1) (some l1) mem1 b1
                 , Call.capture (some p2) (some l2) mem2 b2
                 , Call.release ]).trace
      = [ Event.esp_camera_fb_get b1, Event.esp_camera_fb_get b2
        , Event.esp_camera_fb_return b2 ] ∧
    returnedBuffers (run ⟨g, []⟩ [ Call.capture (some p1) (some l1) mem1 b1
                                 , Call.capture (some p2) (some l2) mem2 b2
                                 , Call.release ]).trace = [b2] ∧
    (run ⟨g, []⟩ [ Call.capture (some p1) (some l1) mem1 b1
                 , Call.capture (some p2) (some l2) mem2 b2
                 , Call.release ]).globals.s_last_fb = nullptr ∧
    b1 ∉ returnedBuffers (run ⟨g, []⟩ ([ Call.capture (some p1) (some l1) mem1 b1
                                       , Call.capture (some p2) (some l2) mem2 b2
                                       , Call.release ] ++ later)).trace := by
  have h1 : ¬ b1 = nullptr := hb1
  have h2 : ¬ b2 = nullptr := hb2
  have htrace : (run ⟨g, []⟩ [ Call.capture (some p1) (some l1) mem1 b1
                 , Call.capture (some p2) (some l2) mem2 b2
                 , Call.release ]).trace
      = [ Event.esp_camera_fb_get b1, Event.esp_camera_fb_get b2
        , Event.esp_camera_fb_return b2 ] := by
    simp [run, step, camera_capture_rgb565, camera_release_frame, h1, h2, hf1, hf2]
  have hslot : (run ⟨g, []⟩ [ Call.capture (some p1) (some l1) mem1 b1
                 , Call.capture (some p2) (some l2) mem2 b2
                 , Call.release ]).globals.s_last_fb = nullptr := by
    simp [run, step, camera_capture_rgb565, camera_release_frame, h1, h2, hf1, hf2]
  have hret : returnedBuffers (run ⟨g, []⟩ [ Call.capture (some p1) (some l1) mem1 b1
                                 , Call.capture (some p2) (some l2) mem2 b2
                                 , Call.release ]).trace = [b2] := by
    rw [htrace]
    simp [returnedBuffers, Event.returnedBuffer]
  refine ⟨?_, ?_, ?_, ?_, htrace, hret, hslot, ?_⟩
  · simp [camera_capture_rgb565, h1, hf1]
  · simp [camera_capture_rgb565, h1, h2, hf1, hf2]
  · simp [run, step, camera_capture_rgb565, h1, hf1]
  · simp [run, step, camera_capture_rgb565, h1, h2, hf1, hf2]
  · have hrun : run ⟨g, []⟩ ([ Call.capture (some p1) (some l1) mem1 b1
                 , Call.capture (some p2) (some l2) mem2 b2
                 , Call.release ] ++ later)
        = run (run ⟨g, []⟩ [ Call.capture (some p1) (some l1) mem1 b1
                 , Call.capture (some p2) (some l2) mem2 b2
                 , Call.release ]) later := by
      simp [run, List.foldl_append]
    rw [hrun]
    refine run_keeps_unreturned b1 hb1 later _ ?_ ?_ hlater
    · rw [hslot]
      exact fun h => hb1 h.symm
    · rw [hret]
      simpa using hne

/-- Instance of the amended C9: buffers 7 and 9, followed by a capture of buffer 9 again
and a release; buffer 7 is never handed back. -/
theorem C9_double_capture_leaks_first_witness :
    returnedBuffers (run ⟨Globals.init, []⟩
      [ Call.capture (some 0) (some 0) (fun _ => qvgaFrame) 7
      , Call.capture (some 0) (some 0) (fun _ => qvgaFrame) 9
      , Call.release ]).trace = [9] ∧
    7 ∉ returnedBuffers (run ⟨Globals.init, []⟩
      ([ Call.capture (some 0) (some 0) (fun _ => qvgaFrame) 7
       , Call.capture (some 0) (some 0) (fun _ => qvgaFrame) 9
       , Call.release ] ++
       [ Call.capture (some 0) (some 0) (fun _ => qvgaFrame) 9, Call.release ])).trace :=
  have h := C9_double_capture_leaks_first Globals.init (fun _ => qvgaFrame) (fun _ => qvgaFrame)
    7 9 0 0 0 0 (by decide) (by decide) (by decide) rfl rfl
    [ Call.capture (some 0) (some 0) (fun _ => qvgaFrame) 9, Call.release ]
    (by simp [Call.driverAnswer])
  ⟨h.2.2.2.2.2.1, h.2.2.2.2.2.2.2⟩

end PipecatCamera
